import Mathlib

/-!
# Verification of the IndexedDB coordinator (`ext/webstorage/02_indexeddb.js`)

A shallow embedding of the key model, key ranges, key generator, transaction
state machine, request pipeline and cursor iteration of the IndexedDB
coordinator, together with proofs and refutations of the specified properties.

Modelling conventions, used throughout:

* JavaScript numbers are modelled as rationals (`ℚ`).  The one place where
  IEEE-754 double ROUNDING is observable in the verified properties is the
  key generator's counter increment at the `2^53` boundary, which is
  modelled explicitly by `jsAddOne`; every other verified or refuted
  property is evaluated only at small, exactly representable numbers.
  `NaN` is modelled as a separate `JSValue` constructor because the source
  only ever tests numbers for NaN-ness before wrapping them.
* JavaScript strings are compared by `<`, which is code-unit lexicographic
  order; this is modelled by `jsStrLt` on the character list.
* `core.serialize`/`core.deserialize` round-trips (the structured clone) are
  modelled as the identity on `JSValue`; the source never observes a
  difference for the values modelled here (no SharedArrayBuffer).
* The `seen` set of `valueToKey` detects reference cycles.  Inductive values
  are finite trees and can never contain themselves, so the check can never
  fire on any modelled value and is omitted.
* Backend (`core.opSync`) calls either return data that is passed in as a
  parameter, or are effect-only calls on the external storage engine that do
  not touch any coordinator state modelled here.
-/

/-! ## Key model (lines 103-299) -/

/-- The `type` tags carried by Key objects: `"number" | "date" | "string" |
`"binary" | "array"`. -/
inductive KeyType where
  | number
  | date
  | string
  | binary
  | array
deriving DecidableEq, Repr

/-- A Key as constructed by `valueToKey`: a `{type, value}` record.
Number and date payloads are JS numbers (modelled as `ℚ`, the date payload
being its millisecond value), binary payloads are copied byte sequences. -/
inductive Key where
  | number (v : ℚ)
  | date (v : ℚ)
  | str (s : String)
  | binary (b : List Nat)
  | array (ks : List Key)

/-- Reading the `type` field of a Key object. -/
def Key.typeOf : Key → KeyType
  | .number _ => .number
  | .date _ => .date
  | .str _ => .string
  | .binary _ => .binary
  | .array _ => .array

/-- JavaScript values that can reach the key-conversion and comparison
functions.  `nan` is a NaN number, `invalidDate` a `Date` whose milliseconds
are NaN, `buf` a `BufferSource`, `obj` a plain object (own enumerable
properties in order), `other` any value convertible to none of these. -/
inductive JSValue where
  | num (v : ℚ)
  | nan
  | date (ms : ℚ)
  | invalidDate
  | str (s : String)
  | buf (b : List Nat)
  | arr (vs : List JSValue)
  | obj (fields : List (String × JSValue))
  | nullv
  | undef
  | other

/-- An argument of `compareTwoKeys` as the function actually receives it: a
genuine Key object, or a raw non-Key value (on which destructuring
`{type, value}` reads `type` as `undefined`).  Two call sites of the source
pass raw values: `IDBKeyRange.includes` (line 2467) and the operation queued
by `IDBCursor.advance` (line 2589). -/
inductive Dyn where
  | key (k : Key)
  | raw (v : JSValue)

/-- JavaScript code-unit comparison of character lists (the semantics of
`<` on two strings). -/
def jsStrLtChars : List Char → List Char → Bool
  | [], [] => false
  | [], _ :: _ => true
  | _ :: _, [] => false
  | a :: as, b :: bs =>
    if a.val < b.val then true
    else if b.val < a.val then false
    else jsStrLtChars as bs

/-- JavaScript `a < b` on strings. -/
def jsStrLt (a b : String) : Bool := jsStrLtChars a.data b.data

/-- JavaScript coercion of a `Uint8Array` to a primitive for relational
comparison: `ToPrimitive` joins the decimal byte values with commas
(`Uint8Array.prototype.toString`). -/
def uint8ArrayToString (b : List Nat) : String :=
  String.intercalate "," (b.map toString)

/-- The `ta !== tb` branch of `compareTwoKeys` (lines 211-234): the if-else
chain establishing the cross-type precedence Array > Binary > String >
Number > Date.  A tag is `none` when the compared value is not a Key object
(its `type` property is `undefined`).  The final `else` of the source is
`assert(tb === "date"); return -1`. -/
def crossTypeOrder (ta tb : Option KeyType) : Int :=
  if ta = some KeyType.array then 1
  else if tb = some KeyType.array then -1
  else if ta = some KeyType.binary then 1
  else if tb = some KeyType.binary then -1
  else if ta = some KeyType.string then 1
  else if tb = some KeyType.string then -1
  else if ta = some KeyType.number then 1
  else if tb = some KeyType.number then -1
  else if ta = some KeyType.date then 1
  else -1

mutual

/-- `compareTwoKeys(a, b)` (lines 206-282) applied to two genuine Keys.
Note the `"binary"` case (lines 256-264): the source returns `-1` both when
`va < vb` and when `vb < va` (the second arm is a copy-paste of the first
with the comparison operands swapped but the result not negated), and the
compared values are the comma-joined string coercions of the byte arrays. -/
def compareTwoKeys (a b : Key) : Int :=
  if a.typeOf ≠ b.typeOf then crossTypeOrder (some a.typeOf) (some b.typeOf)
  else
    match a, b with
    | .number va, .number vb => if va > vb then 1 else if va < vb then -1 else 0
    | .date va, .date vb => if va > vb then 1 else if va < vb then -1 else 0
    | .str va, .str vb =>
      if jsStrLt va vb then -1 else if jsStrLt vb va then 1 else 0
    | .binary va, .binary vb =>
      if jsStrLt (uint8ArrayToString va) (uint8ArrayToString vb) then -1
      else if jsStrLt (uint8ArrayToString vb) (uint8ArrayToString va) then -1
      else 0
    | .array va, .array vb => compareKeyList va vb
    | _, _ => 0

/-- The `"array"` case of `compareTwoKeys` (lines 265-280): element-wise
comparison over the common prefix (`return c` on the first `c !== 0`), then
the longer array is greater. -/
def compareKeyList : List Key → List Key → Int
  | [], [] => 0
  | [], _ :: _ => -1
  | _ :: _, [] => 1
  | a :: as, b :: bs =>
    let c := compareTwoKeys a b
    if c ≠ 0 then c else compareKeyList as bs

end

/-- `compareTwoKeys` as invoked on possibly-raw arguments.  Destructuring a
non-Key value yields `type === undefined`, so a Key on either side wins the
`ta !== tb` precedence chain; two raw values fall into the same-type
`switch`, where `undefined` matches no case and the function returns
`undefined` (modelled as `none`). -/
def compareTwoKeysDyn : Dyn → Dyn → Option Int
  | .key ka, .key kb => some (compareTwoKeys ka kb)
  | .key ka, .raw _ => some (crossTypeOrder (some ka.typeOf) none)
  | .raw _, .key kb => some (crossTypeOrder none (some kb.typeOf))
  | .raw _, .raw _ => none

mutual

/-- `valueToKey(input)` (lines 109-162).  Numbers are rejected when NaN,
dates when their milliseconds are NaN, arrays are converted element-wise
(the first failing element fails the whole conversion), and anything else
must convert as a `BufferSource` (copied) or the conversion returns null. -/
def valueToKey : JSValue → Option Key
  | JSValue.num v => some (Key.number v)
  | JSValue.nan => none
  | JSValue.date ms => some (Key.date ms)
  | JSValue.invalidDate => none
  | JSValue.str s => some (Key.str s)
  | JSValue.arr entries => (valueToKeyList entries).map Key.array
  | JSValue.buf b => some (Key.binary b)
  | JSValue.obj _ => none
  | JSValue.nullv => none
  | JSValue.undef => none
  | JSValue.other => none

/-- The element loop of the array case of `valueToKey` (lines 139-146). -/
def valueToKeyList : List JSValue → Option (List Key)
  | [] => some []
  | e :: rest =>
    match valueToKey e with
    | none => none
    | some k => (valueToKeyList rest).map (k :: ·)

end

/-- `valueToMultiEntryKey(input)` (lines 165-185).  For an array input each
element is converted on its own; a converted key is pushed onto `keys` when
`keys.find((item) => compareTwoKeys(item, key)) === undefined`.  The callback
returns the raw comparison integer, so `find` locates the first item whose
comparison result is truthy, i.e. the first item NOT equal to `key`; the
new key is therefore kept only when every already-collected key compares
equal to it (in particular, equal keys are collected again and distinct keys
are dropped). -/
def valueToMultiEntryKey (input : JSValue) : Option Key :=
  match input with
  | JSValue.arr entries =>
    let keys := entries.foldl
      (fun keys entry =>
        match valueToKey entry with
        | none => keys
        | some key =>
          if (keys.find? (fun item => decide (compareTwoKeys item key ≠ 0))).isNone then
            keys ++ [key]
          else keys)
      []
    some (Key.array keys)
  | _ => valueToKey input

/-! ## Key ranges (lines 187-204, 2296-2471) -/

/-- An `IDBKeyRange`: `[[lowerBound]]`, `[[upperBound]]`, `[[lowerOpen]]`,
`[[upperOpen]]` (lines 2296-2313). -/
structure KeyRange where
  lower : Option Key
  upper : Option Key
  lowerOpen : Bool
  upperOpen : Bool

/-- `createRange(lowerBound, upperBound, lowerOpen = false, upperOpen =
false)` (lines 2301-2313). -/
def createRange (lower upper : Option Key) (lowerOpen upperOpen : Bool) : KeyRange :=
  { lower := lower, upper := upper, lowerOpen := lowerOpen, upperOpen := upperOpen }

/-- `keyInRange(range, key)` (lines 2321-2329).  The `key` parameter is
whatever the call site passed: every internal call site passes a genuine
Key, but `IDBKeyRange.includes` passes the raw, unconverted value. -/
def keyInRange (range : KeyRange) (key : Dyn) : Bool :=
  let lower : Bool :=
    match range.lower with
    | none => true
    | some lb =>
      decide (compareTwoKeysDyn (Dyn.key lb) key = some (-1)) ||
      (decide (compareTwoKeysDyn (Dyn.key lb) key = some 0) && !range.lowerOpen)
  let upper : Bool :=
    match range.upper with
    | none => true
    | some ub =>
      decide (compareTwoKeysDyn (Dyn.key ub) key = some 1) ||
      (decide (compareTwoKeysDyn (Dyn.key ub) key = some 0) && !range.upperOpen)
  lower && upper

/-- The error names raised by the modelled operations (`DOMException` names
and TypeError/ReferenceError). -/
inductive DOMErr where
  | abortError
  | invalidStateError
  | transactionInactiveError
  | readOnlyError
  | dataError
  | constraintError
  | typeError
  | referenceError
  | notFoundError
  | invalidAccessError
deriving DecidableEq, Repr

/-- `IDBKeyRange.only(value)` (lines 2366-2378): convert, throw `DataError`
on failure, else a closed range with both bounds the converted key. -/
def IDBKeyRange_only (value : JSValue) : Except DOMErr KeyRange :=
  match valueToKey value with
  | none => Except.error DOMErr.dataError
  | some key => Except.ok (createRange (some key) (some key) false false)

/-- `IDBKeyRange.includes(key)` (lines 2455-2468): the argument is converted
(`valueToKey`) and a failed conversion throws `DataError`, but the range
test is then performed on the raw argument `key`, not on the converted
`keyVal` (line 2467). -/
def IDBKeyRange_includes (range : KeyRange) (key : JSValue) : Except DOMErr Bool :=
  match valueToKey key with
  | none => Except.error DOMErr.dataError
  | some _ => Except.ok (keyInRange range (Dyn.raw key))

/-! ## Key generator (lines 1119-1149) -/

/-- A key generator: `{current: number}` starting at 1 (line 1126).  The
counter is a JavaScript NUMBER, i.e. an IEEE-754 double: its increments
round. -/
structure KeyGenerator where
  current : ℚ
deriving DecidableEq, Repr

/-- The IEEE-754 double sum `x + 1` for the counter values the key
generator can hold.  Every value ever written to `current` is an integer in
`[1, 2^53]`: it starts at 1, and each write stores the double sum
`x + 1` of such an integer `x` (in `possiblyUpdate`, `x` is a floor clamped
to at most `2^53` by `MathMin`, so only `x ≥ current ≥ 1` reaches the
write).  For an integer `x < 2^53` the sum `x + 1` is exactly
representable; for `x = 2^53` the exact sum `2^53 + 1` lies halfway between
the adjacent doubles `2^53` and `2^53 + 2`, and round-to-nearest-ties-even
returns `2^53` (the even significand) — the counter saturates at `2^53`.
The `x > 2^53` branch extends the saturation to values the generator can
never hold. -/
def jsAddOne (x : ℚ) : ℚ :=
  if x ≥ 9007199254740992 then x else x + 1

/-- `generateKey()` (lines 1128-1136): throw `ConstraintError` above the
2^53 ceiling, else return `{type: "number", value: current}` and increment
(`this.current++` yields the pre-increment value; the increment is the
rounding double sum `jsAddOne`, so the guard `current > 2^53` can never
fire — the counter never exceeds `2^53`). -/
def generateKey (g : KeyGenerator) : Except DOMErr (Key × KeyGenerator) :=
  if g.current > 9007199254740992 then Except.error DOMErr.constraintError
  else Except.ok (Key.number g.current, { current := jsAddOne g.current })

/-- `possiblyUpdate(key)` (lines 1138-1146): a non-number key returns
immediately; otherwise the floor of the value clamped to 2^53 raises the
counter to the double sum `value + 1` when `value >= current`
(`MathMin` and `MathFloor` on doubles are exact; the sum rounds per
`jsAddOne`). -/
def possiblyUpdate (g : KeyGenerator) (key : Key) : KeyGenerator :=
  match key with
  | Key.number v =>
    let value : ℚ := (⌊min v 9007199254740992⌋ : ℤ)
    if value ≥ g.current then { current := jsAddOne value } else g
  | _ => g

/-- One call made on a key generator: `generateKey()` or
`possiblyUpdate(key)`. -/
inductive GenOp where
  | generate
  | update (key : Key)

/-- The state effect plus the generated key (if any) of one call.  A
`generateKey` call that throws `ConstraintError` leaves the counter
untouched and yields no key. -/
def genStep (g : KeyGenerator) : GenOp → KeyGenerator × Option ℚ
  | GenOp.generate =>
    match generateKey g with
    | Except.error _ => (g, none)
    | Except.ok (Key.number v, g1) => (g1, some v)
    | Except.ok (_, g1) => (g1, none)
  | GenOp.update key => (possiblyUpdate g key, none)

/-- Running a sequence of calls: final state and the values of the keys
returned by the `generateKey` calls, in call order. -/
def runGen (g : KeyGenerator) : List GenOp → KeyGenerator × List ℚ
  | [] => (g, [])
  | op :: rest =>
    let s := genStep g op
    let r := runGen s.1 rest
    (r.1, (s.2.toList) ++ r.2)

/-! ## Transaction state machine and request pipeline (lines 361-566,
2781-2869) -/

/-- Transaction states (`[[state]]`, initial `"active"`). -/
inductive TState where
  | active
  | inactive
  | committing
  | finished
deriving DecidableEq, Repr

/-- Transaction modes. -/
inductive TMode where
  | readonly
  | readwrite
  | versionchange
deriving DecidableEq, Repr

/-- An `IDBRequest` as the pipeline sees it: `[[done]]`, `[[result]]`,
`[[error]]`, and whether `[[processedDeferred]]` has been resolved.
`result = none` models `undefined`. -/
structure Request where
  done : Bool
  result : Option JSValue
  error : Option DOMErr
  processed : Bool

/-- A freshly constructed `IDBRequest` (lines 575-598). -/
def newRequest : Request :=
  { done := false, result := none, error := none, processed := false }

/-- An `IDBTransaction`: `[[state]]`, `[[mode]]`, `[[requestList]]`,
`[[error]]`.  `upgradeCleared` models `connection[_upgradeTransaction]`
having been reset to null (only ever touched for version-change
transactions). -/
structure Transaction where
  state : TState
  mode : TMode
  requestList : List Request
  error : Option DOMErr
  upgradeCleared : Bool

/-- Observable notifications, in dispatch order.  Requests are identified by
their (stable) index in the request list: the list is only ever appended to,
because the source's removal (line 490) calls the non-mutating `slice`. -/
inductive Ev where
  | success (rid : Nat)
  | error (rid : Nat)
  | abortEv
  | complete
deriving DecidableEq, Repr

/-- Replace the request at index `i` (the identity-based field updates of
the source). -/
def updateRequest (l : List Request) (i : Nat) (f : Request → Request) : List Request :=
  match l, i with
  | [], _ => []
  | r :: rest, 0 => f r :: rest
  | r :: rest, n + 1 => r :: updateRequest rest n f

/-- `abortTransaction(transaction, error)` (lines 366-400).  The backend
abort op and the TODO-bodied `abortUpgradeTransaction` touch no modelled
state.  State becomes `finished`, the error is recorded when non-null, and
EVERY request in the request list is marked processed, done, result
`undefined`, error `AbortError`, with an error event dispatched on each;
then (for version change) the upgrade back-reference is cleared and the
abort event fires.  The source's step "abort the steps to asynchronously
execute a request" is a TODO (line 376): in-flight operations keep running.
-/
def abortTransaction (t : Transaction) (error : Option DOMErr) : Transaction × List Ev :=
  let t1 : Transaction := { t with state := TState.finished }
  let t2 : Transaction :=
    match error with
    | some e => { t1 with error := some e }
    | none => t1
  let markAborted : Request → Request := fun r =>
    { r with processed := true, done := true, result := none, error := some DOMErr.abortError }
  let t3 : Transaction := { t2 with requestList := t2.requestList.map markAborted }
  let evs : List Ev := (List.range t3.requestList.length).map Ev.error
  let t4 : Transaction :=
    if t3.mode = TMode.versionchange then { t3 with upgradeCleared := true } else t3
  (t4, evs ++ [Ev.abortEv])

/-- `IDBTransaction.prototype.abort()` (lines 2861-2868): invalid from
`committing`/`finished`; otherwise set the state to `inactive` and run the
abort procedure with a null error. -/
def IDBTransaction_abort (t : Transaction) : Except DOMErr (Transaction × List Ev) :=
  if t.state = TState.committing ∨ t.state = TState.finished then
    Except.error DOMErr.invalidStateError
  else
    let t1 : Transaction := { t with state := TState.inactive }
    Except.ok (abortTransaction t1 none)

/-- The synchronous head of `commitTransaction(transaction)` (line 546):
the state is set to `committing`; the rest of the procedure runs
asynchronously (`commitTransactionRun`). -/
def commitTransaction (t : Transaction) : Transaction :=
  { t with state := TState.committing }

/-- The asynchronous body of `commitTransaction` (lines 547-565), entered
once the `for`-loop has awaited `[[processedDeferred]]` of every request in
the request list, in queue order (the list itself; no reordering).  The
backend commit op is the `Except` parameter.  A throwing op rejects the
anonymous async closure — there is no `try`/`catch` — so none of the
remaining steps run and the rejection is reported in the third component.
On success: if the state is still `committing`, it becomes `finished` and
`complete` fires (a version-change transaction first clears the upgrade
back-reference; its final step reads `transaction[_request]`, a property
never assigned on transactions, and dies with a TypeError after the
`complete` event). -/
def commitTransactionRun (t : Transaction) (backendCommit : Except DOMErr Unit) :
    Transaction × List Ev × Option DOMErr :=
  match backendCommit with
  | Except.error e => (t, [], some e)
  | Except.ok _ =>
    if t.state ≠ TState.committing then (t, [], none)
    else
      let t1 : Transaction :=
        if t.mode = TMode.versionchange then { t with upgradeCleared := true } else t
      let t2 : Transaction := { t1 with state := TState.finished }
      if t2.mode = TMode.versionchange then (t2, [Ev.complete], some DOMErr.typeError)
      else (t2, [Ev.complete], none)

/-- The continuation of `asynchronouslyExecuteRequest` (lines 473-540) run
when the awaited `operation()` settles, for the request at index `i`.  The
returned flag records whether the auto-commit branch was taken (in which
case the transaction is left in the `committing` state by
`commitTransaction` and `commitTransactionRun` is still to run).

Faithful points worth noting:
* line 490 calls `requestList.slice(idx, 1)`, which does not mutate the
  list and whose result is discarded, so the finished request STAYS in the
  request list;
* event dispatch is modelled with no registered listeners, so the error
  event's canceled flag stays false and the error branch always escalates
  to `abortTransaction`;
* the success branch runs even if the transaction was aborted meanwhile: it
  overwrites `[[result]]`, clears `[[error]]` and fires `success`
  unconditionally. -/
def asyncRequestSettled (t0 : Transaction) (i : Nat) (outcome : Except DOMErr JSValue) :
    Transaction × List Ev × Bool :=
  match outcome with
  | Except.error e =>
    if t0.state = TState.committing then
      let r := abortTransaction t0 (some e)
      (r.1, r.2, false)
    else
      let markProcessed : Request → Request := fun r => { r with processed := true }
      let markFailed : Request → Request := fun r =>
        { r with done := true, result := none, error := some e }
      let t1 : Transaction :=
        { t0 with requestList := updateRequest t0.requestList i markProcessed }
      let t2 : Transaction :=
        { t1 with requestList := updateRequest t1.requestList i markFailed }
      let t3 : Transaction :=
        if t2.state = TState.inactive then { t2 with state := TState.active } else t2
      let evs : List Ev := [Ev.error i]
      if t3.state = TState.active then
        let t4 : Transaction := { t3 with state := TState.inactive }
        let r := abortTransaction t4 (some e)
        (r.1, evs ++ r.2, false)
      else (t3, evs, false)
  | Except.ok v =>
    let markProcessed : Request → Request := fun r => { r with processed := true }
    let markSucceeded : Request → Request := fun r =>
      { r with done := true, result := some v, error := none }
    let t1 : Transaction :=
      { t0 with requestList := updateRequest t0.requestList i markProcessed }
    let t2 : Transaction :=
      { t1 with requestList := updateRequest t1.requestList i markSucceeded }
    let t3 : Transaction :=
      if t2.state = TState.inactive then { t2 with state := TState.active } else t2
    let evs : List Ev := [Ev.success i]
    if t3.state = TState.active then
      let t4 : Transaction := { t3 with state := TState.inactive }
      if t4.requestList.length = 0 then (commitTransaction t4, evs, true)
      else (t4, evs, false)
    else (t3, evs, false)

/-! ## Key paths and `addOrPut` (lines 301-359, 407-461, 1232-1296) -/

/-- A key path as stored on an object store: a string or a sequence of
strings. -/
inductive KeyPath where
  | single (s : String)
  | multi (paths : List String)

/-- `webidl.type(value) === "Object"`: true for every ECMAScript object
(plain objects, arrays, dates, buffers), false for primitives, null and
undefined. -/
def jsTypeIsObject : JSValue → Bool
  | JSValue.date _ => true
  | JSValue.invalidDate => true
  | JSValue.buf _ => true
  | JSValue.arr _ => true
  | JSValue.obj _ => true
  | _ => false

/-- `ObjectPrototypeHasOwnProperty(value, identifier)`.  Arrays own their
`length` and their index properties; typed arrays own their index
properties (their `length` is a prototype accessor); dates own nothing
relevant. -/
def hasOwnProperty (value : JSValue) (identifier : String) : Bool :=
  match value with
  | JSValue.obj fields => (fields.find? (fun f => f.1 = identifier)).isSome
  | JSValue.arr vs =>
    identifier = "length" ||
      (match identifier.toNat? with
       | some i => decide (i < vs.length)
       | none => false)
  | JSValue.buf b =>
    (match identifier.toNat? with
     | some i => decide (i < b.length)
     | none => false)
  | _ => false

/-- `value[identifier]` for an own property (queried only after
`hasOwnProperty` holds). -/
def getProperty (value : JSValue) (identifier : String) : JSValue :=
  match value with
  | JSValue.obj fields =>
    ((fields.find? (fun f => f.1 = identifier)).map Prod.snd).getD JSValue.undef
  | JSValue.arr vs =>
    if identifier = "length" then JSValue.num vs.length
    else
      match identifier.toNat? with
      | some i => (vs.get? i).getD JSValue.undef
      | none => JSValue.undef
  | JSValue.buf b =>
    (match identifier.toNat? with
     | some i => (b.get? i).map (fun n => JSValue.num n)
     | none => none).getD JSValue.undef
  | _ => JSValue.undef

/-- The per-identifier loop of `evaluateKeyPathOnValue` (lines 433-459).
A string's or array's `length` is read through the special cases of lines
435-438; the `Blob`/`File` cases concern host objects outside the modelled
value grammar; every other identifier reaches line 448, which calls the
unbound identifier `type` (the rest of the source uses `webidl.type`) and
therefore throws a `ReferenceError`. -/
def evaluateIdentifiers : JSValue → List String → Except DOMErr (Option JSValue)
  | value, [] => Except.ok (some value)
  | JSValue.str s, identifier :: rest =>
    if identifier = "length" then evaluateIdentifiers (JSValue.num s.length) rest
    else Except.error DOMErr.referenceError
  | JSValue.arr vs, identifier :: rest =>
    if identifier = "length" then evaluateIdentifiers (JSValue.num vs.length) rest
    else Except.error DOMErr.referenceError
  | _, _ :: _ => Except.error DOMErr.referenceError

/-- A single (string) key path evaluated on a value (lines 430-460): the
empty path yields the value itself, otherwise the path is split on `"."`
and walked. -/
def evaluateSingleKeyPath (value : JSValue) (s : String) : Except DOMErr (Option JSValue) :=
  if s = "" then Except.ok (some value)
  else evaluateIdentifiers value (s.splitOn ".")

/-- The array case of `evaluateKeyPathOnValue` (lines 419-429): evaluate
each member path on the value; the first `_failure` fails the whole
evaluation. -/
def evaluateKeyPathList (value : JSValue) : List String → Except DOMErr (Option (List JSValue))
  | [] => Except.ok (some [])
  | p :: rest =>
    match evaluateSingleKeyPath value p with
    | Except.error e => Except.error e
    | Except.ok none => Except.ok none
    | Except.ok (some v) =>
      match evaluateKeyPathList value rest with
      | Except.error e => Except.error e
      | Except.ok none => Except.ok none
      | Except.ok (some vs) => Except.ok (some (v :: vs))

/-- `evaluateKeyPathOnValue(value, keyPath)` (lines 418-461).  `none` in the
result models `_failure`. -/
def evaluateKeyPathOnValue (value : JSValue) (keyPath : KeyPath) : Except DOMErr (Option JSValue) :=
  match keyPath with
  | KeyPath.single s => evaluateSingleKeyPath value s
  | KeyPath.multi ps =>
    match evaluateKeyPathList value ps with
    | Except.error e => Except.error e
    | Except.ok none => Except.ok none
    | Except.ok (some vs) => Except.ok (some (JSValue.arr vs))

/-- The three possible outcomes of `extractKeyFromValueUsingKeyPath`:
`_failure`, a null key conversion, or a key. -/
inductive KPResult where
  | failure
  | nullKey
  | key (k : Key)

/-- `extractKeyFromValueUsingKeyPath(value, keyPath, multiEntry)` (lines
408-415).  With `multiEntry` truthy the source converts
`valueToMultiEntryKey(r)` — a Key OBJECT (or null) — through `valueToKey`,
which converts a `{type, value}` object as neither a number, date, string,
array nor BufferSource; the result is null either way. -/
def extractKeyFromValueUsingKeyPath (value : JSValue) (keyPath : KeyPath) (multiEntry : Bool) :
    Except DOMErr KPResult :=
  match evaluateKeyPathOnValue value keyPath with
  | Except.error e => Except.error e
  | Except.ok none => Except.ok KPResult.failure
  | Except.ok (some r) =>
    if !multiEntry then
      match valueToKey r with
      | none => Except.ok KPResult.nullKey
      | some k => Except.ok (KPResult.key k)
    else Except.ok KPResult.nullKey

/-- The walk of `checkKeyCanBeInjectedIntoValue` (lines 321-330). -/
def checkKeyLoop : JSValue → List String → Bool
  | value, [] => jsTypeIsObject value
  | value, identifier :: rest =>
    if !jsTypeIsObject value then false
    else if !hasOwnProperty value identifier then true
    else checkKeyLoop (getProperty value identifier) rest

/-- `checkKeyCanBeInjectedIntoValue(value, keyPath)` (lines 317-331).  The
key path is split on `"."` (an array key path has no `split` method and
would throw a TypeError), the last identifier is popped, and the remaining
prefix is walked. -/
def checkKeyCanBeInjectedIntoValue (value : JSValue) (keyPath : KeyPath) : Except DOMErr Bool :=
  match keyPath with
  | KeyPath.multi _ => Except.error DOMErr.typeError
  | KeyPath.single s =>
    let identifiers := s.splitOn "."
    Except.ok (checkKeyLoop value identifiers.dropLast)

/-- `clone(transaction, value)` (lines 350-359): assert the transaction is
active (it is at every modelled call site), flip it inactive around the
serialize/deserialize round-trip (modelled as the identity), flip it back.
-/
def clone (t : Transaction) (value : JSValue) : Transaction × JSValue :=
  let t1 : Transaction := { t with state := TState.inactive }
  let cloned : JSValue := value
  ({ t1 with state := TState.active }, cloned)

/-- An object store as the `addOrPut` validation sees it: its key path and
key generator (`Store`, lines 1111-1150). -/
structure StoreData where
  keyPath : Option KeyPath
  keyGenerator : Option KeyGenerator

/-- The deferred `storeRecordIntoObjectStore(store, cloned, key,
noOverwrite)` operation handed to `asynchronouslyExecuteRequest` (line
1291-1295). -/
structure PendingStoreOp where
  value : JSValue
  key : Option Key
  noOverwrite : Bool

/-- The synchronous part of `asynchronouslyExecuteRequest` (lines 464-470):
assert the transaction is active (it is at every modelled call site),
construct a fresh request when none is supplied and push it onto the
request list. -/
def enqueueRequest (t : Transaction) : Transaction :=
  { t with requestList := t.requestList ++ [newRequest] }

/-- The tail of `addOrPut` once validation has succeeded. -/
def addOrPutEnqueue (t : Transaction) (cloned : JSValue) (key : Option Key) (noOverwrite : Bool) :
    Except DOMErr (Transaction × PendingStoreOp) :=
  Except.ok (enqueueRequest t, { value := cloned, key := key, noOverwrite := noOverwrite })

/-- `addOrPut(handle, value, key, noOverwrite)` (lines 1239-1296), the body
of `IDBObjectStore.prototype.put`/`add`.  The initial `assertObjectStore`
is a backend existence check on an existing store.  Line 1246 throws
`ReadOnlyError` when the transaction mode is NOT `"readonly"` (the
comparison is `!==` where every sibling mutation method — `delete`,
`clear`, cursor `update`/`delete` — uses `===`), so `add`/`put` reject
exactly the writable transactions and proceed on read-only ones. -/
def addOrPut (t : Transaction) (store : StoreData) (value : JSValue) (key : Option JSValue)
    (noOverwrite : Bool) : Except DOMErr (Transaction × PendingStoreOp) :=
  if t.state ≠ TState.active then Except.error DOMErr.transactionInactiveError
  else if t.mode ≠ TMode.readonly then Except.error DOMErr.readOnlyError
  else if store.keyPath.isSome ∧ key.isSome then Except.error DOMErr.dataError
  else if store.keyPath.isNone ∧ store.keyGenerator.isNone ∧ key.isNone then
    Except.error DOMErr.dataError
  else
    let conv : Except DOMErr (Option Key) :=
      match key with
      | none => Except.ok none
      | some kv =>
        match valueToKey kv with
        | none => Except.error DOMErr.dataError
        | some r => Except.ok (some r)
    match conv with
    | Except.error e => Except.error e
    | Except.ok key1 =>
      let c := clone t value
      let t1 : Transaction := c.1
      let cloned : JSValue := c.2
      match store.keyPath with
      | none => addOrPutEnqueue t1 cloned key1 noOverwrite
      | some kp =>
        match extractKeyFromValueUsingKeyPath cloned kp false with
        | Except.error e => Except.error e
        | Except.ok KPResult.nullKey => Except.error DOMErr.dataError
        | Except.ok (KPResult.key kpk) => addOrPutEnqueue t1 cloned (some kpk) noOverwrite
        | Except.ok KPResult.failure =>
          match store.keyGenerator with
          | none => Except.error DOMErr.dataError
          | some _ =>
            match checkKeyCanBeInjectedIntoValue cloned kp with
            | Except.error e => Except.error e
            | Except.ok false => Except.error DOMErr.dataError
            | Except.ok true => addOrPutEnqueue t1 cloned key1 noOverwrite

/-! ## Cursor iteration (lines 1393-1562, 2473-2592) -/

/-- Cursor directions. -/
inductive Direction where
  | next
  | nextunique
  | prev
  | prevunique
deriving DecidableEq, Repr

/-- Whether a cursor's `[[source]]` is an `IDBObjectStore` or an
`IDBIndex` (the source dispatches with `instanceof`). -/
inductive SourceKind where
  | store
  | index
deriving DecidableEq, Repr

/-- An `IDBCursor` (lines 2473-2526): `[[position]]`,
`[[objectStorePosition]]`, `[[key]]`, `[[value]]`, `[[range]]`,
`[[keyOnly]]`, `[[gotValue]]`. -/
structure Cursor where
  sourceKind : SourceKind
  direction : Direction
  position : Option Key
  objectStorePosition : Option JSValue
  key : Option Key
  value : Option JSValue
  range : KeyRange
  keyOnly : Bool
  gotValue : Bool

/-- `createCursor(transaction, direction, source, range, keyOnly)` (lines
2473-2485). -/
def createCursor (direction : Direction) (sourceKind : SourceKind) (range : KeyRange)
    (keyOnly : Bool) : Cursor :=
  { sourceKind := sourceKind, direction := direction, position := none,
    objectStorePosition := none, key := none, value := none, range := range,
    keyOnly := keyOnly, gotValue := false }

/-- `valueToKey(...)` used as a `compareTwoKeys` argument inside
`iterateCursor`: a successful conversion is a Key object; a failed one is
null (destructuring null in `compareTwoKeys` would throw a TypeError — no
modelled execution reaches that case). -/
def dynOfKeyConversion : Option Key → Dyn
  | some k => Dyn.key k
  | none => Dyn.raw JSValue.nullv

/-- The `"next"` search of `iterateCursor` (lines 1416-1450):
`records.find` with the conditions `a` (at or past the target key), `b`
(the `continuePrimaryKey` tie-break), `c` (strictly past the current
position, with the index tie-break on the referenced primary key) and range
membership.  The record value is compared through
`valueToKey(core.deserialize(value))`, and the index tie-break of `c` reads
the cursor FIELD `[_objectStorePosition]`, not the loop-local copy. -/
def iterFindNext (records : List (Key × JSValue)) (cursor : Cursor)
    (key primaryKey : Option Dyn) (position : Option Key) : Option (Key × JSValue) :=
  records.find? (fun rv =>
    let recordKey := rv.1
    let a : Bool :=
      match key with
      | none => true
      | some kd => decide (compareTwoKeysDyn (Dyn.key recordKey) kd ≠ some (-1))
    let b : Bool :=
      match primaryKey with
      | none => true
      | some pkd =>
        let kd := key.getD (Dyn.raw JSValue.undef)
        (decide (compareTwoKeysDyn (Dyn.key recordKey) kd = some 0) &&
          decide (compareTwoKeysDyn (dynOfKeyConversion (valueToKey rv.2)) pkd ≠ some (-1))) ||
        decide (compareTwoKeysDyn (Dyn.key recordKey) kd = some 1)
    let c : Bool :=
      match position with
      | none => true
      | some pos =>
        match cursor.sourceKind with
        | SourceKind.store =>
          decide (compareTwoKeysDyn (Dyn.key recordKey) (Dyn.key pos) = some 1)
        | SourceKind.index =>
          (decide (compareTwoKeysDyn (Dyn.key recordKey) (Dyn.key pos) = some 0) &&
            decide (compareTwoKeysDyn (dynOfKeyConversion (valueToKey rv.2))
                (dynOfKeyConversion
                  (valueToKey (cursor.objectStorePosition.getD JSValue.undef))) = some 1)) ||
          decide (compareTwoKeysDyn (Dyn.key recordKey) (Dyn.key pos) = some 1)
    a && b && c && keyInRange cursor.range (Dyn.key recordKey))

/-- The `"nextunique"` search (lines 1451-1465). -/
def iterFindNextUnique (records : List (Key × JSValue)) (cursor : Cursor)
    (key : Option Dyn) (position : Option Key) : Option (Key × JSValue) :=
  records.find? (fun rv =>
    let recordKey := rv.1
    let a : Bool :=
      match key with
      | none => true
      | some kd => decide (compareTwoKeysDyn (Dyn.key recordKey) kd ≠ some (-1))
    let b : Bool :=
      match position with
      | none => true
      | some pos => decide (compareTwoKeysDyn (Dyn.key recordKey) (Dyn.key pos) = some 1)
    a && b && keyInRange cursor.range (Dyn.key recordKey))

/-- The `"prev"` search (lines 1467-1504): the records are scanned from the
end; the first match is taken. -/
def iterFindPrev (records : List (Key × JSValue)) (cursor : Cursor)
    (key primaryKey : Option Dyn) (position : Option Key) : Option (Key × JSValue) :=
  records.reverse.find? (fun rv =>
    let recordKey := rv.1
    let a : Bool :=
      match key with
      | none => true
      | some kd => decide (compareTwoKeysDyn (Dyn.key recordKey) kd ≠ some 1)
    let b : Bool :=
      match primaryKey with
      | none => true
      | some pkd =>
        let kd := key.getD (Dyn.raw JSValue.undef)
        (decide (compareTwoKeysDyn (Dyn.key recordKey) kd = some 0) &&
          decide (compareTwoKeysDyn (dynOfKeyConversion (valueToKey rv.2)) pkd ≠ some 1)) ||
        decide (compareTwoKeysDyn (Dyn.key recordKey) kd = some (-1))
    let c : Bool :=
      match position with
      | none => true
      | some pos =>
        match cursor.sourceKind with
        | SourceKind.store =>
          decide (compareTwoKeysDyn (Dyn.key recordKey) (Dyn.key pos) = some (-1))
        | SourceKind.index =>
          (decide (compareTwoKeysDyn (Dyn.key recordKey) (Dyn.key pos) = some 0) &&
            decide (compareTwoKeysDyn (dynOfKeyConversion (valueToKey rv.2))
                (dynOfKeyConversion
                  (valueToKey (cursor.objectStorePosition.getD JSValue.undef))) = some (-1))) ||
          decide (compareTwoKeysDyn (Dyn.key recordKey) (Dyn.key pos) = some (-1))
    a && b && c && keyInRange cursor.range (Dyn.key recordKey))

/-- The backward scan of `"prevunique"` that selects `tempRecord` (lines
1507-1524). -/
def iterFindPrevUniqueTemp (records : List (Key × JSValue)) (cursor : Cursor)
    (key : Option Dyn) (position : Option Key) : Option (Key × JSValue) :=
  records.reverse.find? (fun rv =>
    let recordKey := rv.1
    let a : Bool :=
      match key with
      | none => true
      | some kd => decide (compareTwoKeysDyn (Dyn.key recordKey) kd ≠ some 1)
    let b : Bool :=
      match position with
      | none => true
      | some pos => decide (compareTwoKeysDyn (Dyn.key recordKey) (Dyn.key pos) = some (-1))
    a && b && keyInRange cursor.range (Dyn.key recordKey))

/-- Whether `iterateCursor` yielded the cursor or null ("exhausted"). -/
inductive IterResult where
  | exhausted
  | found
deriving DecidableEq, Repr

/-- The `for (; count > 0; count--)` loop of `iterateCursor` (lines
1414-1549) and its epilogue (lines 1551-1561).  `found` models the
`foundRecord` binding, which is declared OUTSIDE the loop: the `"prev"` and
`"prevunique"` arms only assign it on a successful scan, so an iteration
that finds nothing leaves the previous iteration's record in place.  On
`found = none` the cursor is cleared per lines 1535-1543 and the step
yields null.  In the epilogue `found` is `some` whenever the initial count
was positive, as it is at every call site. -/
def iterateCursorLoop (records : List (Key × JSValue)) (cursor : Cursor)
    (key primaryKey : Option Dyn) :
    Nat → Option (Key × JSValue) → Option Key → Option JSValue → Cursor × IterResult
  | 0, found, position, osp =>
    let c1 : Cursor := { cursor with position := position }
    let c2 : Cursor :=
      match c1.sourceKind with
      | SourceKind.index => { c1 with objectStorePosition := osp }
      | SourceKind.store => c1
    let c3 : Cursor := { c2 with key := found.map Prod.fst }
    let c4 : Cursor :=
      if !c3.keyOnly then { c3 with value := found.map Prod.snd } else c3
    ({ c4 with gotValue := true }, IterResult.found)
  | n + 1, found, position, osp =>
    let found1 : Option (Key × JSValue) :=
      match cursor.direction with
      | Direction.next => iterFindNext records cursor key primaryKey position
      | Direction.nextunique => iterFindNextUnique records cursor key position
      | Direction.prev =>
        match iterFindPrev records cursor key primaryKey position with
        | some r => some r
        | none => found
      | Direction.prevunique =>
        match iterFindPrevUniqueTemp records cursor key position with
        | some temp =>
          records.find?
            (fun rv => decide (compareTwoKeysDyn (Dyn.key rv.1) (Dyn.key temp.1) = some 0))
        | none => found
    match found1 with
    | none =>
      let c1 : Cursor :=
        match cursor.sourceKind with
        | SourceKind.index => { cursor with objectStorePosition := none }
        | SourceKind.store => cursor
      let c2 : Cursor := if !c1.keyOnly then { c1 with value := none } else c1
      (c2, IterResult.exhausted)
    | some r =>
      let position1 : Option Key := some r.1
      let osp1 : Option JSValue :=
        match cursor.sourceKind with
        | SourceKind.index => some r.2
        | SourceKind.store => osp
      iterateCursorLoop records cursor key primaryKey n (some r) position1 osp1

/-- `iterateCursor(cursor, key, primaryKey, count = 1)` (lines 1393-1562).
The record set is the backend scan (`ScanRecords`) passed in as `records`.
-/
def iterateCursor (records : List (Key × JSValue)) (cursor : Cursor)
    (key primaryKey : Option Dyn) (count : Nat) : Cursor × IterResult :=
  iterateCursorLoop records cursor key primaryKey count none
    cursor.position cursor.objectStorePosition

/-- `IDBCursor.prototype.advance(count)` (lines 2563-2592).  After the
validations (`count` must be nonzero, the transaction active, the cursor's
store extant and `[[gotValue]]` set), `[[gotValue]]` is cleared, the
request's completion signal is re-armed, and the queued operation is
`iterateCursor(this, count)` (line 2589): `count` is bound to the `key`
PARAMETER of `iterateCursor`, whose own `count` parameter keeps its default
of 1.  The returned pair is the result that operation produces when it
runs. -/
def IDBCursor_advance (records : List (Key × JSValue)) (t : Transaction) (cursor : Cursor)
    (count : Nat) : Except DOMErr (Cursor × IterResult) :=
  if count = 0 then Except.error DOMErr.typeError
  else if t.state ≠ TState.active then Except.error DOMErr.transactionInactiveError
  else if !cursor.gotValue then Except.error DOMErr.invalidStateError
  else
    let cursor1 : Cursor := { cursor with gotValue := false }
    Except.ok (iterateCursor records cursor1 (some (Dyn.raw (JSValue.num (count : ℚ)))) none 1)

/-! ## Theorems -/

/-- Claim C4 (refuting evaluation): `compareTwoKeys` is NOT antisymmetric on
binary keys: both orders of the byte sequences `[0]` and `[1]` compare as
`-1`, so `compare(a,b) = -compare(b,a)` fails. -/
theorem compareTwoKeys_binary_not_antisymmetric :
    compareTwoKeys (Key.binary [0]) (Key.binary [1]) = -1 ∧
    compareTwoKeys (Key.binary [1]) (Key.binary [0]) = -1 ∧
    compareTwoKeys (Key.binary [0]) (Key.binary [1]) ≠
      -compareTwoKeys (Key.binary [1]) (Key.binary [0]) := by
  refine ⟨?_, ?_, ?_⟩ <;>
    simp +decide [compareTwoKeys, crossTypeOrder, Key.typeOf, uint8ArrayToString,
      jsStrLt, jsStrLtChars]

/-- Claim C7 (refuting evaluation): the multi-entry conversion of `[1, 2]`
drops the distinct element `2`, and the conversion of `[1, 1]` keeps the
duplicate, because the dedup callback returns the raw comparison integer. -/
theorem valueToMultiEntryKey_dedup_inverted :
    valueToMultiEntryKey (JSValue.arr [JSValue.num 1, JSValue.num 2]) =
      some (Key.array [Key.number 1]) ∧
    valueToMultiEntryKey (JSValue.arr [JSValue.num 1, JSValue.num 1]) =
      some (Key.array [Key.number 1, Key.number 1]) := by
  constructor <;>
    simp +decide [valueToMultiEntryKey, valueToKey, compareTwoKeys, Key.typeOf,
      List.find?, List.foldl]

/-- The closed range `only(1)`. -/
def c6Range : KeyRange := createRange (some (Key.number 1)) (some (Key.number 1)) false false

/-- Claim C6 (refuting evaluation): `IDBKeyRange.only(1).includes(1)`
returns `false`, although the key `1` satisfies the membership condition on
the converted key (third conjunct), because `includes` hands the raw,
unconverted argument to `keyInRange`. -/
theorem includes_tests_unconverted_value :
    IDBKeyRange_only (JSValue.num 1) = Except.ok c6Range ∧
    IDBKeyRange_includes c6Range (JSValue.num 1) = Except.ok false ∧
    keyInRange c6Range (Dyn.key (Key.number 1)) = true := by
  refine ⟨rfl, ?_, ?_⟩ <;>
    simp +decide [IDBKeyRange_includes, keyInRange, c6Range, createRange, valueToKey,
      compareTwoKeysDyn, compareTwoKeys, crossTypeOrder, Key.typeOf]

/-- A transaction holding exactly one freshly enqueued request. -/
def oneRequestTransaction : Transaction :=
  { state := TState.active, mode := TMode.readwrite, requestList := [newRequest],
    error := none, upgradeCleared := false }

/-- Claim C1 (refuting evaluation): when the only request of a transaction
finishes successfully, the request is NOT removed from the request list
(line 490 calls the non-mutating `slice`), the state ends `inactive`, and
the auto-commit branch (third component `false`) is never taken, so the
transaction never reaches `committing`/`finished`. -/
theorem autoCommit_never_triggered :
    asyncRequestSettled oneRequestTransaction 0 (Except.ok (JSValue.num 7)) =
      ({ state := TState.inactive, mode := TMode.readwrite,
         requestList := [{ done := true, result := some (JSValue.num 7), error := none,
                           processed := true }],
         error := none, upgradeCleared := false }, [Ev.success 0], false) := by
  rfl

/-- The transaction of `oneRequestTransaction` right after `abort()`: state
finished, its request marked done with `AbortError`. -/
def abortedTransaction : Transaction :=
  { state := TState.finished, mode := TMode.readwrite,
    requestList := [{ done := true, result := none, error := some DOMErr.abortError,
                      processed := true }],
    error := none, upgradeCleared := false }

/-- Claim C2 (refuting evaluation): `abort()` on an active transaction with
one in-flight request marks the request done with `AbortError` and fires
its error event followed by the abort event — but when the request's
operation later resolves, the success path still runs: a `success` event
fires after the abort and the request's `AbortError` is overwritten by
`undefined`. -/
theorem success_fires_after_abort :
    IDBTransaction_abort oneRequestTransaction =
      Except.ok (abortedTransaction, [Ev.error 0, Ev.abortEv]) ∧
    asyncRequestSettled abortedTransaction 0 (Except.ok (JSValue.num 7)) =
      ({ abortedTransaction with
           requestList := [{ done := true, result := some (JSValue.num 7), error := none,
                             processed := true }] },
       [Ev.success 0], false) := by
  exact ⟨rfl, rfl⟩

/-- A transaction whose single request has been fully processed, about to
commit. -/
def processedTransaction : Transaction :=
  { state := TState.active, mode := TMode.readwrite,
    requestList := [{ done := true, result := some (JSValue.num 7), error := none,
                      processed := true }],
    error := none, upgradeCleared := false }

/-- Claim C3 (refuting evaluation): after `commitTransaction` has set the
state to `committing`, a throwing backend commit op leaves the transaction
exactly as it was — still `committing`, no abort procedure, no events, its
`[[error]]` unset — and the thrown error escapes as an unhandled rejection
(there is no `try`/`catch` in the async body); a succeeding op finishes the
transaction with a `complete` event. -/
theorem commit_backend_failure_not_aborted :
    (commitTransaction processedTransaction).state = TState.committing ∧
    commitTransactionRun (commitTransaction processedTransaction)
        (Except.error DOMErr.constraintError) =
      (commitTransaction processedTransaction, [], some DOMErr.constraintError) ∧
    commitTransactionRun (commitTransaction processedTransaction) (Except.ok ()) =
      ({ commitTransaction processedTransaction with state := TState.finished },
       [Ev.complete], none) := by
  exact ⟨rfl, rfl, rfl⟩

/-- A store with a key generator and no key path. -/
def generatorStore : StoreData := { keyPath := none, keyGenerator := some { current := 1 } }

/-- An empty active read-write transaction. -/
def activeReadWrite : Transaction :=
  { state := TState.active, mode := TMode.readwrite, requestList := [], error := none,
    upgradeCleared := false }

/-- An empty active read-only transaction. -/
def activeReadOnly : Transaction :=
  { state := TState.active, mode := TMode.readonly, requestList := [], error := none,
    upgradeCleared := false }

/-- Claim C5 (refuting evaluation): `addOrPut` on an ACTIVE READ-WRITE
transaction throws `ReadOnlyError`, while on a read-only transaction it
passes the mode check and enqueues the store operation — the exact inverse
of the claimed behaviour (line 1246 compares with `!==`). -/
theorem addOrPut_readOnly_check_inverted :
    addOrPut activeReadWrite generatorStore (JSValue.num 5) none false =
      Except.error DOMErr.readOnlyError ∧
    addOrPut activeReadOnly generatorStore (JSValue.num 5) none false =
      Except.ok ({ activeReadOnly with requestList := [newRequest] },
                 { value := JSValue.num 5, key := none, noOverwrite := false }) := by
  exact ⟨rfl, rfl⟩

/-- Claim C10: `possiblyUpdate` with a key whose type is not `"number"`
returns before touching the generator: the state is exactly unchanged. -/
theorem possiblyUpdate_nonNumber_frame (g : KeyGenerator) (key : Key)
    (h : key.typeOf ≠ KeyType.number) : possiblyUpdate g key = g := by
  cases key with
  | number v => exact absurd rfl h
  | date v => rfl
  | str s => rfl
  | binary b => rfl
  | array ks => rfl

/-- Witness for claim C10 at the concrete string key `"a"` and generator
state `current = 1`. -/
theorem possiblyUpdate_nonNumber_frame_witness :
    (Key.str "a").typeOf ≠ KeyType.number ∧
    possiblyUpdate { current := 1 } (Key.str "a") = { current := 1 } :=
  ⟨by decide, possiblyUpdate_nonNumber_frame { current := 1 } (Key.str "a") (by decide)⟩

/-- The generator run refuting claim C8: raise the floor to `2^53 - 1`
with `possiblyUpdate`, then call `generateKey` twice. -/
def saturatingOps : List GenOp :=
  [GenOp.update (Key.number 9007199254740991), GenOp.generate, GenOp.generate]

/-- Claim C8 (refuting evaluation): the key generator issues DUPLICATE
keys.  `possiblyUpdate(2^53 - 1)` sets the counter to `2^53`; the next
`generateKey()` passes the `current > 2^53` guard (which can never fire),
returns `2^53`, and the double increment `2^53 + 1` rounds back to `2^53`
(`jsAddOne`), so the following `generateKey()` returns `2^53` AGAIN: the
generated keys `[2^53, 2^53]` are not strictly increasing, refuting the
claim that every generated key is strictly greater than all previously
generated ones (and leaving the `ConstraintError` ceiling unreachable). -/
theorem keyGenerator_saturation_duplicate_keys :
    runGen { current := 1 } saturatingOps =
      ({ current := 9007199254740992 },
       [(9007199254740992 : ℚ), 9007199254740992]) ∧
    ¬ (([(9007199254740992 : ℚ), 9007199254740992]).Pairwise (· < ·)) := by
  constructor
  · norm_num [runGen, saturatingOps, genStep, generateKey, possiblyUpdate, jsAddOne]
  · simp

/-- The unbounded range produced by `valueToKeyRange(undefined)`. -/
def fullRange : KeyRange := createRange none none false false

/-- Three records with keys 1, 2, 3. -/
def threeRecords : List (Key × JSValue) :=
  [(Key.number 1, JSValue.num 10), (Key.number 2, JSValue.num 20),
   (Key.number 3, JSValue.num 30)]

/-- An object-store cursor iterating `"next"` over the whole store,
currently positioned on key 1 with its value loaded. -/
def storeNextCursor : Cursor :=
  { sourceKind := SourceKind.store, direction := Direction.next,
    position := some (Key.number 1), objectStorePosition := none,
    key := some (Key.number 1), value := some (JSValue.num 10),
    range := fullRange, keyOnly := false, gotValue := true }

/-- `storeNextCursor` repositioned on key 2 (value 20). -/
def cursorOnKey2 : Cursor :=
  { storeNextCursor with
    position := some (Key.number 2)
    key := some (Key.number 2)
    value := some (JSValue.num 20) }

/-- `storeNextCursor` repositioned on key 3 (value 30). -/
def cursorOnKey3 : Cursor :=
  { storeNextCursor with
    position := some (Key.number 3)
    key := some (Key.number 3)
    value := some (JSValue.num 30) }

/-- Claim C9 (refuting evaluation): `advance(2)` on a cursor positioned on
key 1 of the records {1, 2, 3} moves it to key 2 — a single cursor step —
because line 2589 passes `count` as the target-key argument of
`iterateCursor` and its step count stays 1 (a raw number as target key
constrains nothing, since `compareTwoKeys` against a tagless value always
yields 1).  Performing the cursor-step procedure `count = 2` times with no
target key, as the claim prescribes, lands on key 3 instead. -/
theorem advance_performs_single_step :
    IDBCursor_advance threeRecords activeReadWrite storeNextCursor 2 =
      Except.ok (cursorOnKey2, IterResult.found) ∧
    iterateCursor threeRecords { storeNextCursor with gotValue := false } none none 2 =
      (cursorOnKey3, IterResult.found) := by
  constructor <;>
    simp +decide [IDBCursor_advance, iterateCursor, iterateCursorLoop, iterFindNext,
      compareTwoKeysDyn, compareTwoKeys, crossTypeOrder, Key.typeOf, keyInRange,
      List.find?, dynOfKeyConversion, valueToKey, threeRecords, storeNextCursor, cursorOnKey2, cursorOnKey3,
      activeReadWrite, fullRange, createRange]
